import Mathlib

/-!
Shallow embedding of the lego-openscad batch STL generator
(src/batch_generate.py and src/generate_stls.py): the fixed parameter
tables, the diverse quadratic, the single-job invoker, the batch driver
loop, and the inner generator's fatal precondition checks.

Subprocess execution is modelled by an oracle describing the outcome of
each invocation (normal completion with a return code and captured stderr,
timeout, or other exception); the drivers are pure functions of that
oracle, returning the observable results: printed rows, invoked jobs,
tallies and the process exit code.
-/

/-- The list RADII = [24, 32, 40, 48, 56, 64, 72, 80, 88, 96, 104, 112, 120]
from batch_generate.py. -/
def RADII : List Int := [24, 32, 40, 48, 56, 64, 72, 80, 88, 96, 104, 112, 120]

/-- The dictionary ANGLE_MAP from batch_generate.py, as an association list.
The Python float values 22.5, 18, 15, 11.25 are exact dyadic rationals,
modelled as Rat. -/
def ANGLE_MAP : List (Int × Rat) :=
  [(24, 22.5), (32, 22.5),
   (40, 18), (48, 18), (56, 18),
   (64, 15), (72, 15), (80, 15), (88, 15),
   (96, 11.25), (104, 11.25), (112, 11.25), (120, 11.25)]

/-- Dictionary access ANGLE_MAP[radius], made total with Option
(Python raises KeyError on a missing key). -/
def angleLookup (radius : Int) : Option Rat := ANGLE_MAP.lookup radius

/-- The function calculate_diverse from batch_generate.py:
min(int(0.8125 * (radius - 64) ** 2 + 500), 1800).
Since 0.8125 = 13/16 is an exact dyadic rational and (radius - 64) ** 2 is
an integer, the Python float computation is exact for every radius of
interest, and int(...) truncates the nonnegative value
13 * (radius - 64)^2 / 16 + 500 toward zero, i.e. takes its floor, which
is integer floor division by 16. -/
def calculate_diverse (radius : Int) : Int :=
  min (13 * (radius - 64) ^ 2 / 16 + 500) 1800

/-- The dictionary comprehension
DIVERSE_MAP = \x7bradius: calculate_diverse(radius) for radius in RADII\x7d. -/
def DIVERSE_MAP : List (Int × Int) :=
  RADII.map (fun radius => (radius, calculate_diverse radius))

/-- Dictionary access DIVERSE_MAP[radius], made total with Option. -/
def diverseLookup (radius : Int) : Option Int := DIVERSE_MAP.lookup radius

/-- The spec's own formula for the diverse value, written from the spec's
words: min(int(0.8125*(radius-64)^2+500), 1800), computed over the exact
rationals with int as floor of the (nonnegative) argument.  To be compared
with calculate_diverse, the definition translated from the source. -/
def specDiverse (radius : Int) : Int :=
  min (⌊(0.8125 : Rat) * ((radius : Rat) - 64) ^ 2 + 500⌋) 1800

/-- Successive differences of a list of integers (the step pattern). -/
def stepsOf : List Int → List Int
  | a :: b :: rest => (b - a) :: stepsOf (b :: rest)
  | _ => []

/-- Outcome of one subprocess.run call, as observed by the caller:
normal completion with a return code and the captured stderr text, a
subprocess.TimeoutExpired, or any other exception. -/
inductive RunEvent where
  | completed (returncode : Int) (stderr : String)
  | timedOut
  | exceptionRaised (msg : String)

/-- The function run_generator from batch_generate.py, given the outcome
of its subprocess.run call.  Returns the boolean result together with the
diagnostic lines it prints to stderr: return code 0 yields True with no
diagnostics; a nonzero return code yields False and reports the captured
stderr; a timeout or any other exception is caught and yields False. -/
def run_generator (radius : Int) (ev : RunEvent) : Bool × List String :=
  match ev with
  | .completed returncode stderr =>
      if returncode = 0 then (true, [])
      else (false, ["Error: " ++ stderr])
  | .timedOut => (false, ["Error: Timeout for R" ++ toString radius])
  | .exceptionRaised msg =>
      (false, ["Error generating R" ++ toString radius ++ ": " ++ msg])

/-- Accumulator of the batch loop in main of batch_generate.py:
success_count, failed_radii, and the list of radii for which
run_generator was invoked (in order). -/
structure LoopState where
  successCount : Nat
  failedRadii : List Int
  invoked : List Int
deriving DecidableEq

/-- One iteration of the for-loop in main of batch_generate.py: invoke
run_generator for the radius and tally the result. -/
def batchStep (job : Int → RunEvent) (acc : LoopState) (radius : Int) : LoopState :=
  if (run_generator radius (job radius)).1 then
    { successCount := acc.successCount + 1
      failedRadii := acc.failedRadii
      invoked := acc.invoked ++ [radius] }
  else
    { successCount := acc.successCount
      failedRadii := acc.failedRadii ++ [radius]
      invoked := acc.invoked ++ [radius] }

/-- Observable result of main in batch_generate.py: the parameter rows
printed in dry-run mode, the loop tallies, and the process exit code. -/
structure BatchResult where
  dryRows : List (Int × Option Rat × Option Int)
  successCount : Nat
  failedRadii : List Int
  invoked : List Int
  exitCode : Nat
deriving DecidableEq

/-- The function main of batch_generate.py, as a function of the dry_run
flag and an oracle giving each radius's subprocess outcome.  In dry-run
mode it prints one table row per radius and returns (exit code 0) without
invoking anything; otherwise it runs the loop over RADII and exits with
code 1 when failed_radii is nonempty, 0 otherwise. -/
def batch_main (dry_run : Bool) (job : Int → RunEvent) : BatchResult :=
  if dry_run then
    { dryRows := RADII.map (fun radius => (radius, angleLookup radius, diverseLookup radius))
      successCount := 0
      failedRadii := []
      invoked := []
      exitCode := 0 }
  else
    let loop := RADII.foldl (batchStep job) ⟨0, [], []⟩
    { dryRows := []
      successCount := loop.successCount
      failedRadii := loop.failedRadii
      invoked := loop.invoked
      exitCode := if loop.failedRadii = [] then 0 else 1 }

/-- The four configuration names of CONFIGURATIONS in generate_stls.py,
in dictionary insertion order. -/
def CONFIG_NAMES : List String :=
  ["ballast_and_buddy", "ballast", "track_ballast_and_buddy", "track_and_ballast"]

/-- Environment preconditions checked by main of generate_stls.py:
whether the openscad executable is found on PATH (check_openscad) and
whether the input .scad scene file exists. -/
structure GenEnv where
  openscadOnPath : Bool
  scadFileExists : Bool

/-- Observable result of main in generate_stls.py: the (radius, config)
jobs for which the CAD tool was invoked, and the process exit code. -/
structure GenRun where
  invocations : List (Int × String)
  exitCode : Nat
deriving DecidableEq

/-- The function main of generate_stls.py, as a function of the
environment, the requested radii, an optional single configuration, and
an oracle giving each (radius, config) job's success.  It first checks
that the scad file exists, then that openscad is on PATH, exiting with
code 1 before any invocation if either check fails; otherwise it runs
every job and exits 1 iff some job failed. -/
def generate_stls_main (env : GenEnv) (radii : List Int) (config : Option String)
    (job : Int → String → Bool) : GenRun :=
  if env.scadFileExists = false then { invocations := [], exitCode := 1 }
  else if env.openscadOnPath = false then { invocations := [], exitCode := 1 }
  else
    let jobs := match config with
      | some c => radii.map (fun radius => (radius, c))
      | none => radii.flatMap (fun radius => CONFIG_NAMES.map (fun c => (radius, c)))
    let totalSuccess := jobs.countP (fun rc => job rc.1 rc.2)
    { invocations := jobs
      exitCode := if totalSuccess < jobs.length then 1 else 0 }

/-- The boolean outcome of one batch job under the oracle. -/
def jobOk (job : Int → RunEvent) (radius : Int) : Bool :=
  (run_generator radius (job radius)).1

lemma batchLoop_spec (job : Int → RunEvent) (radii : List Int) (acc : LoopState) :
    radii.foldl (batchStep job) acc =
      { successCount := acc.successCount + radii.countP (jobOk job)
        failedRadii := acc.failedRadii ++ radii.filter (fun r => ! jobOk job r)
        invoked := acc.invoked ++ radii } := by
  induction radii generalizing acc with
  | nil => simp
  | cons r rest ih =>
    rw [List.foldl_cons, ih]
    unfold batchStep
    by_cases h : (run_generator r (job r)).1
    · rw [if_pos h]
      have hj : jobOk job r = true := h
      simp [List.countP_cons, List.filter_cons, hj]
      omega
    · rw [if_neg h]
      have hj : jobOk job r = false := by simpa [jobOk] using h
      simp [List.countP_cons, List.filter_cons, hj]

section Claims

/-- C1: For every radius in RADII, the diverse value computed by
calculate_diverse and stored in DIVERSE_MAP equals the spec's formula
min(int(0.8125*(radius-64)^2+500), 1800). -/
theorem diverse_map_matches_spec_formula :
    DIVERSE_MAP = RADII.map (fun radius => (radius, specDiverse radius)) := by
  simp only [DIVERSE_MAP, RADII, List.map_cons, List.map_nil, List.cons.injEq,
    Prod.mk.injEq, and_true]
  norm_num [calculate_diverse, specDiverse]

/-- C2 counterexample: the step pattern of RADII is everywhere the
constant 8 — in particular it is not non-uniform at the top of the range:
the differences between consecutive radii are all equal. -/
theorem radii_steps_all_uniform :
    stepsOf RADII = List.replicate 12 8 := by decide

/-- C2 (amended): RADII is a strictly increasing list of exactly 13
integer values, from 24 to 120, with a uniform step of 8 throughout. -/
theorem radii_list_shape :
    RADII.length = 13 ∧ List.Pairwise (fun a b => a < b) RADII ∧
      RADII.head? = some 24 ∧ RADII.getLast? = some 120 ∧
      stepsOf RADII = List.replicate 12 8 := by decide

/-- C3: in the batch driver, a failure of a single job does not abort the
batch: run_generator is invoked for every radius of RADII in order
regardless of failures, each failed radius is recorded in failed_radii,
and the exit code is 0 exactly when every job succeeded and 1 exactly
when at least one job failed. -/
theorem batch_loop_no_abort (job : Int → RunEvent) :
    (batch_main false job).invoked = RADII ∧
    (batch_main false job).failedRadii = RADII.filter (fun r => ! jobOk job r) ∧
    (batch_main false job).successCount = RADII.countP (jobOk job) ∧
    ((batch_main false job).exitCode = 0 ↔ ∀ r ∈ RADII, jobOk job r = true) ∧
    ((batch_main false job).exitCode = 1 ↔ ∃ r ∈ RADII, jobOk job r = false) := by
  have hloop := batchLoop_spec job RADII ⟨0, [], []⟩
  simp only [batch_main, Bool.false_eq_true, if_false, hloop]
  refine ⟨rfl, by simp, by simp, ?_, ?_⟩
  · constructor
    · intro h r hr
      by_contra hbad
      have : r ∈ List.filter (fun r => ! jobOk job r) RADII := by
        simp [List.mem_filter, hr, hbad]
      rcases hfilter : List.filter (fun r => ! jobOk job r) RADII with _ | ⟨a, rest⟩
      · rw [hfilter] at this; simp at this
      · simp [hfilter] at h
    · intro h
      have : List.filter (fun r => ! jobOk job r) RADII = [] := by
        rw [List.filter_eq_nil_iff]
        intro a ha
        simp [h a ha]
      simp [this]
  · constructor
    · intro h
      rcases hfilter : List.filter (fun r => ! jobOk job r) RADII with _ | ⟨a, rest⟩
      · simp [hfilter] at h
      · have : a ∈ List.filter (fun r => ! jobOk job r) RADII := by
          rw [hfilter]; exact List.mem_cons_self a rest
        rw [List.mem_filter] at this
        exact ⟨a, this.1, by simpa using this.2⟩
    · intro ⟨r, hr, hfail⟩
      have : List.filter (fun r => ! jobOk job r) RADII ≠ [] := by
        intro hnil
        have := List.filter_eq_nil_iff.mp hnil r hr
        simp [hfail] at this
      simp [this]

/-- C3 witness: with an oracle that times every job out, the batch still
invokes all 13 radii and exits with code 1. -/
theorem batch_loop_no_abort_witness :
    (batch_main false (fun _ => RunEvent.timedOut)).invoked = RADII ∧
      (batch_main false (fun _ => RunEvent.timedOut)).exitCode = 1 :=
  ⟨(batch_loop_no_abort (fun _ => RunEvent.timedOut)).1,
   (batch_loop_no_abort (fun _ => RunEvent.timedOut)).2.2.2.2.mpr
     ⟨24, by decide, rfl⟩⟩

/-- C4: a single-job invocation has exactly three outcomes: success
(True, no diagnostic) when the subprocess exits 0; failure (False) with
the captured stderr reported when it exits nonzero; and failure when the
timeout elapses — the timeout is caught and returned as an ordinary False
result (with a diagnostic), not propagated; any other exception is
likewise caught and returned as False. -/
theorem run_generator_outcomes (radius : Int) (stderr : String) (code : Int)
    (msg : String) :
    run_generator radius (.completed 0 stderr) = (true, []) ∧
    (code ≠ 0 →
      run_generator radius (.completed code stderr) =
        (false, ["Error: " ++ stderr])) ∧
    run_generator radius .timedOut =
      (false, ["Error: Timeout for R" ++ toString radius]) ∧
    run_generator radius (.exceptionRaised msg) =
      (false, ["Error generating R" ++ toString radius ++ ": " ++ msg]) := by
  refine ⟨rfl, ?_, rfl, rfl⟩
  intro h
  simp [run_generator, h]

/-- C4 witness: at radius 24 with return code 1 and stderr text, the
invoker returns False and reports the captured text; a timeout also
returns False. -/
theorem run_generator_outcomes_witness :
    run_generator 24 (.completed 1 "boom") = (false, ["Error: " ++ "boom"]) ∧
      run_generator 24 .timedOut =
        (false, ["Error: Timeout for R" ++ toString (24 : Int)]) :=
  ⟨(run_generator_outcomes 24 "boom" 1 "x").2.1 (by decide),
   (run_generator_outcomes 24 "boom" 1 "x").2.2.1⟩

/-- C5: in dry-run mode the batch driver produces exactly one parameter
row per radius of RADII (13 rows), invokes no subprocess, and returns
with exit code 0 having performed no batch work, whatever the subprocess
oracle would do. -/
theorem dry_run_prints_only (job : Int → RunEvent) :
    (batch_main true job).dryRows =
      RADII.map (fun radius => (radius, angleLookup radius, diverseLookup radius)) ∧
    (batch_main true job).dryRows.length = 13 ∧
    (batch_main true job).invoked = [] ∧
    (batch_main true job).successCount = 0 ∧
    (batch_main true job).failedRadii = [] ∧
    (batch_main true job).exitCode = 0 := by
  refine ⟨rfl, ?_, rfl, rfl, rfl, rfl⟩
  simp [batch_main, RADII]

/-- C5 witness: with an oracle that would time every job out, dry-run
mode still prints 13 rows and invokes nothing. -/
theorem dry_run_prints_only_witness :
    (batch_main true (fun _ => RunEvent.timedOut)).dryRows.length = 13 ∧
      (batch_main true (fun _ => RunEvent.timedOut)).invoked = [] :=
  ⟨(dry_run_prints_only (fun _ => RunEvent.timedOut)).2.1,
   (dry_run_prints_only (fun _ => RunEvent.timedOut)).2.2.1⟩

/-- C6: the angle table maps every radius in RADII — no radius of the
list is unmapped — and every value stored in ANGLE_MAP is one of the
documented step values 22.5, 18, 15 and 11.25. -/
theorem angle_map_covers_radii :
    (∀ r ∈ RADII, ∃ a, angleLookup r = some a ∧
        (a = 22.5 ∨ a = 18 ∨ a = 15 ∨ a = 11.25)) ∧
    (∀ p ∈ ANGLE_MAP, p.2 = 22.5 ∨ p.2 = 18 ∨ p.2 = 15 ∨ p.2 = 11.25) := by
  constructor
  · intro r hr
    fin_cases hr
    · exact ⟨22.5, rfl, Or.inl rfl⟩
    · exact ⟨22.5, rfl, Or.inl rfl⟩
    · exact ⟨18, rfl, Or.inr (Or.inl rfl)⟩
    · exact ⟨18, rfl, Or.inr (Or.inl rfl)⟩
    · exact ⟨18, rfl, Or.inr (Or.inl rfl)⟩
    · exact ⟨15, rfl, Or.inr (Or.inr (Or.inl rfl))⟩
    · exact ⟨15, rfl, Or.inr (Or.inr (Or.inl rfl))⟩
    · exact ⟨15, rfl, Or.inr (Or.inr (Or.inl rfl))⟩
    · exact ⟨15, rfl, Or.inr (Or.inr (Or.inl rfl))⟩
    · exact ⟨11.25, rfl, Or.inr (Or.inr (Or.inr rfl))⟩
    · exact ⟨11.25, rfl, Or.inr (Or.inr (Or.inr rfl))⟩
    · exact ⟨11.25, rfl, Or.inr (Or.inr (Or.inr rfl))⟩
    · exact ⟨11.25, rfl, Or.inr (Or.inr (Or.inr rfl))⟩
  · intro p hp
    fin_cases hp
    · exact Or.inl rfl
    · exact Or.inl rfl
    · exact Or.inr (Or.inl rfl)
    · exact Or.inr (Or.inl rfl)
    · exact Or.inr (Or.inl rfl)
    · exact Or.inr (Or.inr (Or.inl rfl))
    · exact Or.inr (Or.inr (Or.inl rfl))
    · exact Or.inr (Or.inr (Or.inl rfl))
    · exact Or.inr (Or.inr (Or.inl rfl))
    · exact Or.inr (Or.inr (Or.inr rfl))
    · exact Or.inr (Or.inr (Or.inr rfl))
    · exact Or.inr (Or.inr (Or.inr rfl))
    · exact Or.inr (Or.inr (Or.inr rfl))

/-- C6 witness: radius 96 is mapped, to the documented value 11.25. -/
theorem angle_map_covers_radii_witness :
    ∃ a, angleLookup 96 = some a ∧
      (a = 22.5 ∨ a = 18 ∨ a = 15 ∨ a = 11.25) :=
  angle_map_covers_radii.1 96 (by decide)

/-- C7: if the openscad executable is not on PATH or the scad scene file
does not exist, the inner generator exits with code 1 having invoked the
CAD tool for no job at all. -/
theorem missing_tool_or_scene_is_fatal (env : GenEnv) (radii : List Int)
    (config : Option String) (job : Int → String → Bool)
    (h : env.openscadOnPath = false ∨ env.scadFileExists = false) :
    generate_stls_main env radii config job = { invocations := [], exitCode := 1 } := by
  rcases h with h | h
  · by_cases hs : env.scadFileExists = false
    · simp [generate_stls_main, hs]
    · simp [generate_stls_main, hs, h]
  · simp [generate_stls_main, h]

/-- C7 witness: with openscad missing from PATH (scene file present), a
request for all 13 radii performs no invocation and exits 1. -/
theorem missing_tool_or_scene_is_fatal_witness :
    generate_stls_main ⟨false, true⟩ RADII none (fun _ _ => true) =
      { invocations := [], exitCode := 1 } :=
  missing_tool_or_scene_is_fatal ⟨false, true⟩ RADII none (fun _ _ => true)
    (Or.inl rfl)

/-- C8: over the radii of RADII, the diverse value is non-increasing
below 64, attains its minimum 500 at radius 64, is at least 500
everywhere, and is non-decreasing above 64 (the clamp at 1800 keeps this
non-strict). -/
theorem diverse_v_shape :
    (∀ i j : Fin RADII.length,
        RADII.get i ≤ RADII.get j → RADII.get j ≤ 64 →
          calculate_diverse (RADII.get j) ≤ calculate_diverse (RADII.get i)) ∧
    calculate_diverse 64 = 500 ∧
    (∀ i : Fin RADII.length, 500 ≤ calculate_diverse (RADII.get i)) ∧
    (∀ i j : Fin RADII.length,
        64 ≤ RADII.get i → RADII.get i ≤ RADII.get j →
          calculate_diverse (RADII.get i) ≤ calculate_diverse (RADII.get j)) := by
  decide

/-- C8 witness: 24 ≤ 64 ≤ 64 gives diverse(64) ≤ diverse(24), and
64 ≤ 72 ≤ 120 gives diverse(72) ≤ diverse(120). -/
theorem diverse_v_shape_witness :
    calculate_diverse 64 ≤ calculate_diverse 24 ∧
      calculate_diverse 72 ≤ calculate_diverse 120 :=
  ⟨diverse_v_shape.1 ⟨0, by decide⟩ ⟨5, by decide⟩ (by decide) (by decide),
   diverse_v_shape.2.2.2 ⟨6, by decide⟩ ⟨12, by decide⟩ (by decide) (by decide)⟩

/-- C9: calculate_diverse is symmetric about the vertex radius 64:
for every integer offset k, its value at 64 + k equals its value at
64 - k. -/
theorem diverse_symmetric_about_vertex (k : Int) :
    calculate_diverse (64 + k) = calculate_diverse (64 - k) := by
  unfold calculate_diverse
  have h1 : (64 + k - 64 : Int) = k := by ring
  have h2 : (64 - k - 64 : Int) = -k := by ring
  rw [h1, h2, neg_sq]

/-- C9 witness: the diverse value at radius 67 equals the value at
radius 61. -/
theorem diverse_symmetric_about_vertex_witness :
    calculate_diverse (64 + 3) = calculate_diverse (64 - 3) :=
  diverse_symmetric_about_vertex 3

/-- C10: for every integer radius, calculate_diverse radius lies between
500 and 1800. -/
theorem diverse_bounded (radius : Int) :
    500 ≤ calculate_diverse radius ∧ calculate_diverse radius ≤ 1800 := by
  unfold calculate_diverse
  constructor
  · apply le_min
    · have h : (0 : Int) ≤ 13 * (radius - 64) ^ 2 / 16 := by positivity
      omega
    · norm_num
  · exact min_le_right _ _

/-- C10 witness: the diverse value at radius 100 lies between 500 and
1800. -/
theorem diverse_bounded_witness :
    500 ≤ calculate_diverse 100 ∧ calculate_diverse 100 ≤ 1800 :=
  diverse_bounded 100

end Claims
